import Mathlib

/-!
# JoinSwap: shallow embedding and verification

This file embeds the JoinSwap protocol sources (`src/lib.rs`,
`src/user_protocol.rs`, `src/maker_protocol.rs`) in Lean and settles the
frozen claims about them.

Modelling conventions:
* `u64` amounts are `Nat`; the binaries are run with debug assertions, so a
  `u64` subtraction or a division by zero panics, which (like a failed
  `assert!`) aborts the protocol session.  We model such partial
  arithmetic with `csub`/`cdiv` returning `Option Nat` and model an abort as
  the surrounding computation returning `false`/`none`/a truncated trace.
* Public keys are opaque identifiers (`Nat`).  A private key determines its
  public key through secp256k1, an injective map of the secret scalar; we
  model a private key as a record holding that scalar and the derivation as
  the map onto it.
* `sha256` and the descriptor-to-script compiler are external collaborators;
  they are modelled by explicit injective stand-in functions.
* A transaction id is a hash of the unsigned transaction; it is modelled by
  an injective pairing-based encoding of the transaction.
* The bdk wallet/tx-builder library is an external collaborator; its
  consumed operations (`fee_amount`, `TxBuilder` with `fee_absolute` /
  `drain_to`, psbt `combine`) are modelled from their documented contracts,
  with the builder-chosen funding fee taken as an explicit parameter.
-/

/-- A compiled output script, identified opaquely. -/
abbrev Script := Nat

/-- A public key, identified opaquely (its serialized form). -/
abbrev PublicKey := Nat

/-- A private key: the secret scalar.  secp256k1 public-key derivation is an
injective function of this scalar, modelled as the identity on it. -/
structure PrivateKey where
  key : Nat
deriving DecidableEq, Inhabited

/-- Model of `PrivateKey::public_key` (secp256k1 derivation, injective). -/
def PrivateKey.publicKey (k : PrivateKey) : PublicKey := k.key

/-- Checked `u64` subtraction: `none` models the debug-mode underflow panic. -/
def csub (a b : Nat) : Option Nat := if b ≤ a then some (a - b) else none

/-- `lib.rs` `check_prv_keys`: derive the public key of every handed-over
private key and assert it occurs exactly once in `match_against`.  `false`
models the `assert_eq!` panic. -/
def check_prv_keys (prv_keys : List PrivateKey) (match_against : List PublicKey) : Bool :=
  (prv_keys.map (fun key => key.publicKey)).all
    (fun key => (match_against.filter (fun actual_key => actual_key == key)).length == 1)

/-- `user_protocol.rs` `check_contract_keys`: all nine keys pairwise
distinct (via the `HashSet` cardinality) and each of the caller's keys
occurring exactly once in its policy-path triplet. -/
def check_contract_keys (keys : List PublicKey)
    (my_key1 my_key2 my_key3 : PublicKey) : Bool :=
  (keys.length == keys.dedup.length) &&
  (((keys.take 3).filter (fun key => key == my_key1)).length == 1) &&
  ((((keys.drop 3).take 3).filter (fun key => key == my_key2)).length == 1) &&
  ((((keys.drop 6).take 3).filter (fun key => key == my_key3)).length == 1)

/-- `lib.rs` `maker2users_contract_desc`: the maker-to-user contract
descriptor template.  Keys and the hash enter through their textual
(`Display`) form, which is external; the Rust `format!` literal, after the
`\`-line-joins, is the flat template transcribed here. -/
def maker2users_contract_desc (multisig_keys : Fin 2 → String)
    (timelock_key hashlock_key : String) (hash : String) : String :=
  "wsh(thresh(1,multi(2," ++ multisig_keys 0 ++ "," ++ multisig_keys 1 ++
  "),snj:and_v(v:pk(" ++ timelock_key ++
  "),older(69)),aj:and_v(v:pk(" ++ hashlock_key ++
  "),sha256(" ++ hash ++ "))))"

/-- `lib.rs` `users2maker_contract_desc`: the users-to-maker contract
descriptor template over nine keys and the commitment hash. -/
def users2maker_contract_desc (keys : Fin 9 → String) (hash : String) : String :=
  "wsh(thresh(1,multi(3," ++ keys 0 ++ "," ++ keys 1 ++ "," ++ keys 2 ++
  "),anj:and_v(v:multi(3," ++ keys 3 ++ "," ++ keys 4 ++ "," ++ keys 5 ++
  "),older(48)),aj:and_v(v:multi(3," ++ keys 6 ++ "," ++ keys 7 ++ "," ++ keys 8 ++
  "),sha256(" ++ hash ++ "))))"

/-- Stand-in for the external miniscript compiler mapping a descriptor
string to its output script (injective on ASCII descriptor strings). -/
def descriptor_spk (desc_str : String) : Script :=
  desc_str.data.foldr (fun c acc => c.toNat + 256 * acc) 0

/-- Stand-in for SHA-256 on the 32-byte commitment preimage: an arbitrary
injective function. -/
def sha256 (preimage : Nat) : Nat := 2 * preimage + 1

/-- A reference to an output of a previous transaction. -/
structure OutPoint where
  txid : Nat
  vout : Nat
deriving DecidableEq, Inhabited

/-- A transaction output: an amount and an output script. -/
structure TxOut where
  value : Nat
  script_pubkey : Script
deriving DecidableEq, Inhabited

/-- A transaction input: the spent outpoint and the nSequence field. -/
structure TxIn where
  previous_output : OutPoint
  sequence : Nat
deriving DecidableEq, Inhabited

/-- An unsigned transaction (the fields the protocol consumes). -/
structure Transaction where
  version : Nat
  input : List TxIn
  output : List TxOut
deriving DecidableEq, Inhabited

/-- Per-input psbt data (the fields the protocol consumes). -/
structure PsbtInput where
  non_witness_utxo : Option Transaction
  witness_utxo : Option TxOut
deriving DecidableEq, Inhabited

/-- A partially signed transaction: the unsigned transaction, per-input
data, the per-output entry count, and an abstract set of signatures. -/
structure Psbt where
  unsigned_tx : Transaction
  inputs : List PsbtInput
  outputs : List Unit
  sigs : List Nat
deriving DecidableEq, Inhabited

/-- Injective encoding of a list of naturals (for the txid stand-in). -/
def encodeList (xs : List Nat) : Nat :=
  xs.foldr (fun a b => Nat.pair a b + 1) 0

/-- Injective encoding of an outpoint. -/
def OutPoint.encode (o : OutPoint) : Nat := Nat.pair o.txid o.vout

/-- Injective encoding of a transaction input. -/
def TxIn.encode (i : TxIn) : Nat := Nat.pair i.previous_output.encode i.sequence

/-- Injective encoding of a transaction output. -/
def TxOut.encode (o : TxOut) : Nat := Nat.pair o.value o.script_pubkey

/-- Stand-in for `Transaction::txid` (the double-SHA256 of the serialized
unsigned transaction): an injective encoding of the transaction. -/
def Transaction.txid (t : Transaction) : Nat :=
  Nat.pair t.version
    (Nat.pair (encodeList (t.input.map TxIn.encode))
      (encodeList (t.output.map TxOut.encode)))

/-- bdk `PsbtUtils::get_utxo_for`: the spent output backing input `i`,
from its `witness_utxo` or, failing that, its `non_witness_utxo`. -/
def Psbt.get_utxo_for (p : Psbt) (i : Nat) : Option TxOut :=
  match p.unsigned_tx.input.get? i, p.inputs.get? i with
  | some txin, some pin =>
    match pin.witness_utxo with
    | some u => some u
    | none =>
      match pin.non_witness_utxo with
      | some prev_tx => prev_tx.output.get? txin.previous_output.vout
      | none => none
  | _, _ => none

/-- bdk `PsbtUtils::fee_amount` (external collaborator, modelled from its
contract): total backing-utxo value minus total output value, defined only
when every input's utxo is known and no underflow occurs. -/
def Psbt.fee_amount (p : Psbt) : Option Nat :=
  match (List.range p.unsigned_tx.input.length).mapM p.get_utxo_for with
  | none => none
  | some utxos =>
    csub ((utxos.map TxOut.value).sum) ((p.unsigned_tx.output.map TxOut.value).sum)

/-- The compiled contract descriptor, consumed only through its output
script (`Descriptor::script_pubkey`, external). -/
structure Descriptor where
  script_pubkey : Script
deriving DecidableEq, Inhabited

/-- A refund address, consumed only through `Address::script_pubkey`. -/
structure Address where
  script_pubkey : Script
deriving DecidableEq, Inhabited

/-- bdk `LocalUtxo` (the fields `check_psbts` consumes). -/
structure LocalUtxo where
  outpoint : OutPoint
  txout : TxOut
deriving DecidableEq, Inhabited

/-- `check_psbts` step 1: the funding output at index 0 pays the contract
script (indexing `output[0]` panics when there is no output). -/
def check1 (funding : Psbt) (desc : Descriptor) : Bool :=
  match funding.unsigned_tx.output.get? 0 with
  | some out0 => out0.script_pubkey == desc.script_pubkey
  | none => false

/-- `check_psbts` step 2: the funding fee (`fee_amount().unwrap()`) is
strictly below 420. -/
def check2 (funding : Psbt) : Bool :=
  match funding.fee_amount with
  | some funding_fee => decide (funding_fee < 420)
  | none => false

/-- The previous outputs referenced by the funding inputs. -/
def funding_prevouts (funding : Psbt) : List OutPoint :=
  funding.unsigned_tx.input.map (fun txin => txin.previous_output)

/-- `check_psbts` step 3: the caller's own utxo occurs exactly once among
the funding inputs. -/
def check3 (funding : Psbt) (my_utxo : LocalUtxo) : Bool :=
  ((funding_prevouts funding).filter (fun prevout => prevout == my_utxo.outpoint)).length == 1

/-- `check_psbts` step 4 input values: for each funding input, the value of
the referenced output inside its `non_witness_utxo` (`unwrap` and the
`output[vout]` indexing panic when missing). -/
def funding_input_values (funding : Psbt) : Option (List Nat) :=
  (funding.inputs.zip (funding_prevouts funding)).mapM
    (fun pv =>
      match pv.1.non_witness_utxo with
      | some prev_tx => (prev_tx.output.get? pv.2.vout).map TxOut.value
      | none => none)

/-- `check_psbts` step 4: total input value minus the funding fee equals the
value of funding output 0. -/
def check4 (funding : Psbt) : Bool :=
  match funding_input_values funding, funding.fee_amount,
      funding.unsigned_tx.output.get? 0 with
  | some vals, some funding_fee, some out0 =>
    match csub vals.sum funding_fee with
    | some diff => diff == out0.value
    | none => false
  | _, _, _ => false

/-- `check_psbts` step 5: the refund has exactly one psbt input and its
transaction spends funding output 0. -/
def check5 (funding refund : Psbt) : Bool :=
  (refund.inputs.length == 1) &&
  (match refund.unsigned_tx.input.get? 0 with
   | some rin0 => rin0.previous_output == OutPoint.mk funding.unsigned_tx.txid 0
   | none => false)

/-- `check_psbts` step 6: version 2 and input sequence encoding the 48-block
relative timelock (`Sequence::from_height(48)` is the raw value 48). -/
def check6 (refund : Psbt) : Bool :=
  (refund.unsigned_tx.version == 2) &&
  (match refund.unsigned_tx.input.get? 0 with
   | some rin0 => rin0.sequence == 48
   | none => false)

/-- The refund outputs paying the caller's refund address. -/
def my_txouts (refund : Psbt) (refund_addr : Address) : List TxOut :=
  refund.unsigned_tx.output.filter
    (fun txout => txout.script_pubkey == refund_addr.script_pubkey)

/-- `check_psbts` step 7: exactly one refund output pays the caller's
refund address. -/
def check7 (refund : Psbt) (refund_addr : Address) : Bool :=
  (my_txouts refund refund_addr).length == 1

/-- The refund value `check_psbts` step 8 requires for the caller:
`initial_value - (funding_fee + 1000) / users`, with the `u64` division and
subtraction partial (`none` models the division-by-zero or underflow
panic). -/
def step8_refund_amount (initial_value funding_fee users : Nat) : Option Nat :=
  if users = 0 then none else csub initial_value ((funding_fee + 1000) / users)

/-- `check_psbts` step 8: the refund fee is exactly 1000 and the first
output paying the caller's address carries the proportional-fee-sharing
value. -/
def check8 (funding refund : Psbt) (my_utxo : LocalUtxo) (refund_addr : Address) : Bool :=
  match funding.fee_amount, refund.fee_amount with
  | some funding_fee, some rfee =>
    (rfee == 1000) &&
    (match step8_refund_amount my_utxo.txout.value funding_fee refund.outputs.length with
     | some refund_amount =>
       match (my_txouts refund refund_addr).get? 0 with
       | some mo => mo.value == refund_amount
       | none => false
     | none => false)
  | _, _ => false

/-- `user_protocol.rs` `check_psbts`: the Validation Engine.  `false` models
an `assert!`/`unwrap` abort; the checks run in source order and the first
failure aborts. -/
def check_psbts (funding refund : Psbt) (desc : Descriptor)
    (my_utxo : LocalUtxo) (refund_addr : Address) : Bool :=
  check1 funding desc &&
  check2 funding &&
  check3 funding my_utxo &&
  check4 funding &&
  check5 funding refund &&
  check6 refund &&
  check7 refund refund_addr &&
  check8 funding refund my_utxo refund_addr

/-- bdk `WeightedUtxo` for a foreign (user-proven) utxo: the outpoint and
the psbt input data proving it (`Utxo::Foreign`). -/
structure WeightedUtxo where
  outpoint : OutPoint
  psbt_input : PsbtInput
deriving DecidableEq, Inhabited

/-- `lib.rs` `build_funding_tx` through the external `TxBuilder`: spend
exactly the given foreign utxos and drain everything, minus the
builder-chosen fee `fee` (external fee estimation, taken as a parameter),
to the contract wallet's address.  `none` models the builder failing (and
the `unwrap` panicking) when funds are insufficient.  The input amounts
come from each foreign input's `witness_utxo`. -/
def build_funding_tx (pub_desc : Descriptor) (utxos : List WeightedUtxo)
    (fee : Nat) : Option Psbt :=
  match utxos.mapM (fun u => u.psbt_input.witness_utxo) with
  | none => none
  | some touts =>
    match csub ((touts.map TxOut.value).sum) fee with
    | none => none
    | some drained =>
      some
        { unsigned_tx :=
            { version := 2
            , input := utxos.map (fun u => { previous_output := u.outpoint, sequence := 4294967294 })
            , output := [{ value := drained, script_pubkey := pub_desc.script_pubkey }] }
        , inputs := utxos.map (fun u => u.psbt_input)
        , outputs := [()]
        , sigs := [] }

/-- `lib.rs` `build_refund_tx`: pay each refund address its initial value
minus its integer share of the funding fee and of the fixed 1000-unit
refund fee, spending funding output 0 through the 48-block timelocked
policy path (so version 2 and nSequence 48) with `fee_absolute(1000)`.
`none` models the `assert_eq!` on lengths, a `u64` underflow panic in the
share computation, and the external builder failing (`unwrap` panic) when
the spent output cannot cover the recipients plus the absolute fee. -/
def build_refund_tx (recipients : List (Address × Nat)) (funding_psbt : Psbt) :
    Option Psbt :=
  if recipients.length = funding_psbt.unsigned_tx.input.length then
    match funding_psbt.fee_amount with
    | none => none
    | some funding_fee =>
      let out_count := recipients.length
      let refund_fee := 1000
      match recipients.mapM (fun av =>
          match csub av.2 (funding_fee / out_count) with
          | none => none
          | some partial_value =>
            match csub partial_value (refund_fee / out_count) with
            | none => none
            | some final_value =>
              some ({ value := final_value, script_pubkey := av.1.script_pubkey } : TxOut)) with
      | none => none
      | some outs =>
        match funding_psbt.unsigned_tx.output.get? 0 with
        | none => none
        | some fout =>
          if (outs.map TxOut.value).sum + refund_fee ≤ fout.value then
            some
              { unsigned_tx :=
                  { version := 2
                  , input := [{ previous_output := OutPoint.mk funding_psbt.unsigned_tx.txid 0, sequence := 48 }]
                  , output := outs }
              , inputs := [{ non_witness_utxo := none, witness_utxo := none }]
              , outputs := outs.map (fun _ => ())
              , sigs := [] }
          else none
  else none

/-- `lib.rs` `build_funding_and_refund`: build the funding transaction from
the users' utxos, then the refund spending it back proportionally, and set
the refund input's `witness_utxo` to the funding output so it can be
signed before the funding transaction is. -/
def build_funding_and_refund (pub_desc : Descriptor)
    (from_utxos : List WeightedUtxo) (refund_to : List Address)
    (funding_builder_fee : Nat) : Option (Psbt × Psbt) :=
  if from_utxos.length = refund_to.length then
    match from_utxos.mapM (fun u => u.psbt_input.witness_utxo) with
    | none => none
    | some touts =>
      let initial_amounts := touts.map TxOut.value
      let refund_recipients := refund_to.zip initial_amounts
      match build_funding_tx pub_desc from_utxos funding_builder_fee with
      | none => none
      | some funding_psbt =>
        match build_refund_tx refund_recipients funding_psbt with
        | none => none
        | some refund_psbt =>
          match funding_psbt.unsigned_tx.output.get? 0, refund_psbt.inputs with
          | some fout, pin :: rest =>
            some (funding_psbt,
              { refund_psbt with inputs := { pin with witness_utxo := some fout } :: rest })
          | _, _ => none
  else none

/-- Observable events of the user client (`user_protocol.rs` `main`). -/
inductive UEvent where
  | sendUserData
  | recvContractData
  | signSendRefund
  | recvFinalizedRefund (txid : Nat)
  | signSendFunding
  | recvFinalizedFunding (txid : Nat)
  | sendSecondUserData
  | recvSecondContractData
  | sendHashlockPrvKey (key : Nat)
  | recvPreimageAndKey
  | sendFinalPrvKey (key : Nat)
deriving DecidableEq, Inhabited

/-- Everything the user client generates or receives in one session; reads
from the maker are inputs (the network being external). -/
structure UserInputs where
  prv_key1 : PrivateKey
  prv_key2 : PrivateKey
  prv_key3 : PrivateKey
  my_utxo : LocalUtxo
  refund_addr : Address
  recv_keys : List PublicKey
  recv_hash : Nat
  funding : Psbt
  refund : Psbt
  finalized_refund : Psbt
  finalized_funding : Psbt
  prv_key4 : PrivateKey
  prv_key5 : PrivateKey
  maker_keys : List PublicKey
  maker_txid : Nat
  preimage : Nat
  maker_prv_key : PrivateKey
deriving Inhabited

/-- The users-to-maker descriptor the user re-derives from the received
keys and hash (`users2maker_contract_desc` plus the external compile). -/
def userDesc (inp : UserInputs) : Descriptor :=
  Descriptor.mk (descriptor_spk (users2maker_contract_desc
    (fun i => Nat.repr (inp.recv_keys.getD i.val 0)) (Nat.repr inp.recv_hash)))

/-- The four keys the user embeds in the maker-to-user contract descriptor
it builds: `[pub_key4, maker_key1]`, `maker_key2`, `pub_key5`
(`user_protocol.rs` lines 113-118). -/
def user_maker2user_keys (inp : UserInputs) : List PublicKey :=
  [inp.prv_key4.publicKey, inp.maker_keys.getD 0 0, inp.maker_keys.getD 1 0,
   inp.prv_key5.publicKey]

/-- Second-leg portion of the user client: reconnect under a new identity,
read the maker keys and txid (`read_second_contract_data` asserting the two
maker keys distinct), hand over the hashlock-path private key, read the
preimage and the maker's contract key, verify the preimage hashes to the
committed value, verify the maker key, and only then release the final
cooperative-path private key. -/
def userPhase2 (inp : UserInputs) : List UEvent :=
  UEvent.sendSecondUserData ::
  (if inp.maker_keys.length = 2 then
    (if inp.maker_keys.getD 0 0 ≠ inp.maker_keys.getD 1 0 then
      UEvent.recvSecondContractData ::
      UEvent.sendHashlockPrvKey inp.prv_key3.key ::
      UEvent.recvPreimageAndKey ::
      (if sha256 inp.preimage = inp.recv_hash then
        (if check_prv_keys [inp.maker_prv_key] [inp.maker_keys.getD 0 0] then
          [UEvent.sendFinalPrvKey inp.prv_key1.key]
        else [])
      else [])
    else [])
  else [])

/-- `user_protocol.rs` `main` as an event trace.  The control flow is
straight-line; a failed assertion or panic truncates the trace at that
point.  Reading the finalized refund/funding checks the received
transaction id against the one the user previously signed (`read_psbt` with
`Some(txid)`); the funding transaction is signed only inside the branch
where the finalized refund arrived and matched. -/
def userRun (inp : UserInputs) : List UEvent :=
  UEvent.sendUserData ::
  (if inp.recv_keys.length = 9 then
    UEvent.recvContractData ::
    (if check_contract_keys inp.recv_keys inp.prv_key1.publicKey
        inp.prv_key2.publicKey inp.prv_key3.publicKey then
      (if check_psbts inp.funding inp.refund (userDesc inp) inp.my_utxo inp.refund_addr then
        UEvent.signSendRefund ::
        UEvent.recvFinalizedRefund inp.finalized_refund.unsigned_tx.txid ::
        (if inp.finalized_refund.unsigned_tx.txid = inp.refund.unsigned_tx.txid then
          UEvent.signSendFunding ::
          UEvent.recvFinalizedFunding inp.finalized_funding.unsigned_tx.txid ::
          (if inp.finalized_funding.unsigned_tx.txid = inp.funding.unsigned_tx.txid then
            userPhase2 inp
          else [])
        else [])
      else [])
    else [])
  else [])

/-- Observable events of the maker orchestrator (`maker_protocol.rs`
`main`); the index names which user connection a message goes to. -/
inductive MEvent where
  | recvUserData
  | sendContractData (user : Nat)
  | recvSignedRefund (user : Nat)
  | signRefund
  | sendFinalizedRefund (user : Nat)
  | recvSignedFunding (user : Nat)
  | sendFinalizedFunding (user : Nat)
  | recvSecondUserData (user : Nat)
  | sendSecondContractData (user : Nat)
  | recvHashlockKeys
  | revealPreimageAndKeys (user : Nat)
  | recvFinalKeys
deriving DecidableEq, Inhabited

/-- Everything the maker generates or receives in one session. -/
structure MakerInputs where
  key1_a : PublicKey
  key2_a : PublicKey
  key3_a : PublicKey
  utxo_a : WeightedUtxo
  addr_a : Address
  key1_b : PublicKey
  key2_b : PublicKey
  key3_b : PublicKey
  utxo_b : WeightedUtxo
  addr_b : Address
  prv_key1 : PrivateKey
  prv_key2 : PrivateKey
  prv_key3 : PrivateKey
  preimage : Nat
  funding_builder_fee : Nat
  signed_refund_a : Psbt
  signed_refund_b : Psbt
  signed_funding_a : Psbt
  signed_funding_b : Psbt
  key1_x : PublicKey
  key2_x : PublicKey
  key1_y : PublicKey
  key2_y : PublicKey
  prv_key4 : PrivateKey
  prv_key5 : PrivateKey
  prv_key6 : PrivateKey
  prv_key7 : PrivateKey
  hashlock_key_a : PrivateKey
  hashlock_key_b : PrivateKey
  final_key_a : PrivateKey
  final_key_b : PrivateKey
deriving Inhabited

/-- The nine contract keys in maker layout:
`[key1_a, key1_b, pub_key1, key2_a, key2_b, pub_key2, key3_a, key3_b, pub_key3]`. -/
def makerKeys (inp : MakerInputs) : List PublicKey :=
  [inp.key1_a, inp.key1_b, inp.prv_key1.publicKey,
   inp.key2_a, inp.key2_b, inp.prv_key2.publicKey,
   inp.key3_a, inp.key3_b, inp.prv_key3.publicKey]

/-- The users-to-maker descriptor the maker builds; the commitment hash is
the SHA-256 of its freshly generated preimage (`gen_hash`). -/
def makerDesc (inp : MakerInputs) : Descriptor :=
  Descriptor.mk (descriptor_spk (users2maker_contract_desc
    (fun i => Nat.repr ((makerKeys inp).getD i.val 0))
    (Nat.repr (sha256 inp.preimage))))

/-- Second-leg portion of the maker: accept the two new identities, build
and fund the maker-to-user contracts (external wallet), send the maker keys
and txids, read the hashlock-path private keys from the original
connections, verify them against the expected hashlock public keys (a
mismatch panics in `check_prv_keys`), and only then reveal the preimage and
the phase-2 multisig private keys to the new identities. -/
def makerPhase2 (inp : MakerInputs) : List MEvent :=
  MEvent.recvSecondUserData 0 ::
  MEvent.recvSecondUserData 1 ::
  MEvent.sendSecondContractData 0 ::
  MEvent.sendSecondContractData 1 ::
  MEvent.recvHashlockKeys ::
  (if check_prv_keys [inp.hashlock_key_a, inp.hashlock_key_b] [inp.key3_a, inp.key3_b] then
    MEvent.revealPreimageAndKeys 0 ::
    MEvent.revealPreimageAndKeys 1 ::
    MEvent.recvFinalKeys ::
    (if check_prv_keys [inp.final_key_a, inp.final_key_b] [inp.key1_a, inp.key1_b] then
      []
    else [])
  else [])

/-- `maker_protocol.rs` `main` as an event trace.  `read_and_combine_psbt`
checks each received psbt's transaction id against the locally built one;
the finalized funding transaction is combined and redistributed only after
the maker has signed the combined refund and sent the finalized refund to
both users. -/
def makerRun (inp : MakerInputs) : List MEvent :=
  MEvent.recvUserData ::
  (match build_funding_and_refund (makerDesc inp) [inp.utxo_a, inp.utxo_b]
      [inp.addr_a, inp.addr_b] inp.funding_builder_fee with
   | none => []
   | some (funding_psbt, refund_psbt) =>
     MEvent.sendContractData 0 ::
     MEvent.sendContractData 1 ::
     MEvent.recvSignedRefund 0 ::
     (if inp.signed_refund_a.unsigned_tx.txid = refund_psbt.unsigned_tx.txid then
       MEvent.recvSignedRefund 1 ::
       (if inp.signed_refund_b.unsigned_tx.txid = refund_psbt.unsigned_tx.txid then
         MEvent.signRefund ::
         MEvent.sendFinalizedRefund 0 ::
         MEvent.sendFinalizedRefund 1 ::
         MEvent.recvSignedFunding 0 ::
         (if inp.signed_funding_a.unsigned_tx.txid = funding_psbt.unsigned_tx.txid then
           MEvent.recvSignedFunding 1 ::
           (if inp.signed_funding_b.unsigned_tx.txid = funding_psbt.unsigned_tx.txid then
             MEvent.sendFinalizedFunding 0 ::
             MEvent.sendFinalizedFunding 1 ::
             makerPhase2 inp
           else [])
         else [])
       else [])
     else []))

/-- Characterization of checked subtraction. -/
theorem csub_eq_some_iff (a b c : Nat) : csub a b = some c ↔ b ≤ a ∧ c = a - b := by
  unfold csub
  split
  · simp only [Option.some.injEq]
    omega
  · simp only [reduceCtorEq, false_iff, not_and]
    omega

/-- A shared concrete prior transaction funding user A's collateral. -/
def exPrev1 : Transaction :=
  { version := 2, input := [], output := [{ value := 5000, script_pubkey := 11 }] }

/-- A shared concrete prior transaction funding user B's collateral. -/
def exPrev2 : Transaction :=
  { version := 2, input := [], output := [{ value := 5000, script_pubkey := 12 }] }

/-- User A's collateral outpoint. -/
def exOutpoint1 : OutPoint := { txid := exPrev1.txid, vout := 0 }

/-- User B's collateral outpoint. -/
def exOutpoint2 : OutPoint := { txid := exPrev2.txid, vout := 0 }

/-- User A's collateral as a local utxo. -/
def exMyUtxo : LocalUtxo :=
  { outpoint := exOutpoint1, txout := { value := 5000, script_pubkey := 11 } }

/-- User A's refund address. -/
def exAddrA : Address := Address.mk 101

/-- User B's refund address. -/
def exAddrB : Address := Address.mk 102

/-- A concrete funding psbt over the two shared collaterals, paying
`10000 - fee` to the contract script `spk`. -/
def mkExFunding (spk fee : Nat) : Psbt :=
  { unsigned_tx :=
      { version := 2
      , input :=
          [ { previous_output := exOutpoint1, sequence := 4294967294 }
          , { previous_output := exOutpoint2, sequence := 4294967294 } ]
      , output := [{ value := 10000 - fee, script_pubkey := spk }] }
  , inputs :=
      [ { non_witness_utxo := some exPrev1, witness_utxo := some { value := 5000, script_pubkey := 11 } }
      , { non_witness_utxo := some exPrev2, witness_utxo := some { value := 5000, script_pubkey := 12 } } ]
  , outputs := [()]
  , sigs := [] }

/-- A concrete refund psbt spending `mkExFunding spk fee` back to the two
refund addresses with values `v1` and `v2`, through the timelocked path. -/
def mkExRefund (spk fee v1 v2 : Nat) : Psbt :=
  { unsigned_tx :=
      { version := 2
      , input :=
          [ { previous_output := { txid := (mkExFunding spk fee).unsigned_tx.txid, vout := 0 }
            , sequence := 48 } ]
      , output :=
          [ { value := v1, script_pubkey := 101 }
          , { value := v2, script_pubkey := 102 } ] }
  , inputs := [ { non_witness_utxo := none, witness_utxo := some { value := 10000 - fee, script_pubkey := spk } } ]
  , outputs := [(), ()]
  , sigs := [] }

/-- A simple stand-in compiled descriptor for Validation Engine examples. -/
def exDesc : Descriptor := Descriptor.mk 7

/-- C8: `users2maker_contract_desc` is a pure function of its inputs and
returns exactly the threshold-of-1 descriptor text over an immediate 3-of-3
multisig path, a 3-of-3 multisig path behind `older(48)`, and a 3-of-3
multisig path behind `sha256(hash)`, each key's textual position fixed by
its array index. -/
theorem c8_users2maker_descriptor_text (keys : Fin 9 → String) (hash : String) :
    users2maker_contract_desc keys hash =
      "wsh(thresh(1," ++
      ("multi(3," ++ keys 0 ++ "," ++ keys 1 ++ "," ++ keys 2 ++ ")") ++ "," ++
      ("anj:and_v(v:multi(3," ++ keys 3 ++ "," ++ keys 4 ++ "," ++ keys 5 ++ "),older(48))") ++ "," ++
      ("aj:and_v(v:multi(3," ++ keys 6 ++ "," ++ keys 7 ++ "," ++ keys 8 ++ "),sha256(" ++ hash ++ "))") ++
      "))" := by
  apply String.ext
  unfold users2maker_contract_desc
  simp [String.data_append]

/-- C9: `maker2users_contract_desc` is a pure function of its inputs and
returns exactly the threshold-of-1 descriptor text over an immediate 2-of-2
multisig path, a single-key path behind `older(69)`, and a single-key path
behind `sha256(hash)`. -/
theorem c9_maker2users_descriptor_text (multisig_keys : Fin 2 → String)
    (timelock_key hashlock_key : String) (hash : String) :
    maker2users_contract_desc multisig_keys timelock_key hashlock_key hash =
      "wsh(thresh(1," ++
      ("multi(2," ++ multisig_keys 0 ++ "," ++ multisig_keys 1 ++ ")") ++ "," ++
      ("snj:and_v(v:pk(" ++ timelock_key ++ "),older(69))") ++ "," ++
      ("aj:and_v(v:pk(" ++ hashlock_key ++ "),sha256(" ++ hash ++ "))") ++
      "))" := by
  apply String.ext
  unfold maker2users_contract_desc
  simp [String.data_append]

/-- C10: `check_prv_keys` does not require the handed-over private keys to
be distinct: the handover `[5, 5]` against the two distinct expected keys
`[5, 7]` — two copies of one expected key's private key and no key at all
for the other — is accepted. -/
theorem c10_duplicate_prv_keys_accepted :
    check_prv_keys [PrivateKey.mk 5, PrivateKey.mk 5] [5, 7] = true ∧
    (PrivateKey.mk 5).publicKey = 5 ∧ (5 : PublicKey) ≠ 7 := by
  decide

/-- C2 counterexample: a funding/refund pair whose funding fee is exactly
the ceiling value 420 and which passes every other Validation Engine check
is nevertheless rejected (`assert!(funding_fee < 420)` fails), refuting
that a fee of exactly 420 is accepted. -/
theorem c2_fee_420_rejected_counterexample :
    (mkExFunding 7 420).fee_amount = some 420 ∧
    check1 (mkExFunding 7 420) exDesc = true ∧
    check3 (mkExFunding 7 420) exMyUtxo = true ∧
    check4 (mkExFunding 7 420) = true ∧
    check5 (mkExFunding 7 420) (mkExRefund 7 420 4290 4290) = true ∧
    check6 (mkExRefund 7 420 4290 4290) = true ∧
    check7 (mkExRefund 7 420 4290 4290) exAddrA = true ∧
    check8 (mkExFunding 7 420) (mkExRefund 7 420 4290 4290) exMyUtxo exAddrA = true ∧
    check2 (mkExFunding 7 420) = false ∧
    check_psbts (mkExFunding 7 420) (mkExRefund 7 420 4290 4290) exDesc exMyUtxo exAddrA = false := by
  decide

/-- C2 amended: the fee ceiling is exclusive.  `check_psbts` aborts on
every funding transaction whose computed fee is 420 or more (in particular
at exactly 420 and at 421), and accepts a funding transaction whose fee is
419, one unit below the ceiling. -/
theorem c2_fee_boundary_amended :
    (∀ (funding refund : Psbt) (desc : Descriptor) (my_utxo : LocalUtxo)
        (refund_addr : Address) (fee : Nat),
      funding.fee_amount = some fee → 420 ≤ fee →
      check_psbts funding refund desc my_utxo refund_addr = false) ∧
    ((mkExFunding 7 419).fee_amount = some 419 ∧
      check_psbts (mkExFunding 7 419) (mkExRefund 7 419 4291 4290) exDesc exMyUtxo exAddrA = true) := by
  constructor
  · intro funding refund desc my_utxo refund_addr fee hfee hge
    have h420 : ¬ (fee < 420) := by omega
    unfold check_psbts check2
    rw [hfee]
    simp [h420]
  · decide

/-- Witness for the amended C2 theorem: the hypotheses are satisfiable; at
the concrete pair with fee exactly 420 the Validation Engine aborts. -/
theorem c2_fee_boundary_amended_witness :
    check_psbts (mkExFunding 7 420) (mkExRefund 7 420 4290 4290) exDesc exMyUtxo exAddrA = false :=
  c2_fee_boundary_amended.1 (mkExFunding 7 420) (mkExRefund 7 420 4290 4290) exDesc exMyUtxo
    exAddrA 420 (by decide) (by decide)

/-- C4: `check_psbts` accepts only value-conserving funding transactions:
on success the sum of the referenced previous-output values equals the
funding output-0 value plus the computed fee; and when the Validation
Engine rejects, the user client signs neither the refund nor the funding
transaction. -/
theorem c4_value_conservation :
    (∀ (funding refund : Psbt) (desc : Descriptor) (my_utxo : LocalUtxo)
        (refund_addr : Address),
      check_psbts funding refund desc my_utxo refund_addr = true →
      ∃ vals fee out0,
        funding_input_values funding = some vals ∧
        funding.fee_amount = some fee ∧
        funding.unsigned_tx.output.get? 0 = some out0 ∧
        vals.sum = out0.value + fee) ∧
    (∀ inp : UserInputs,
      check_psbts inp.funding inp.refund (userDesc inp) inp.my_utxo inp.refund_addr = false →
      UEvent.signSendRefund ∉ userRun inp ∧ UEvent.signSendFunding ∉ userRun inp) := by
  constructor
  · intro funding refund desc my_utxo refund_addr h
    simp only [check_psbts, Bool.and_eq_true, and_assoc] at h
    obtain ⟨-, -, -, h4, -⟩ := h
    unfold check4 at h4
    split at h4
    case _ vals fee out0 hvals hfee hout0 =>
      split at h4
      case _ diff hdiff =>
        rw [csub_eq_some_iff] at hdiff
        refine ⟨vals, fee, out0, hvals, hfee, hout0, ?_⟩
        simp only [beq_iff_eq] at h4
        omega
      case _ => cases h4
    case _ => cases h4
  · intro inp h
    simp only [userRun, h, Bool.false_eq_true, if_false]
    constructor <;> {
      intro hmem
      simp only [List.mem_cons, List.not_mem_nil] at hmem
      rcases hmem with h1 | hmem
      · cases h1
      · split at hmem
        · simp only [List.mem_cons, List.not_mem_nil] at hmem
          rcases hmem with h1 | hmem
          · cases h1
          · split at hmem
            · simp at hmem
            · simp at hmem
        · simp at hmem
    }

/-- A user-inputs record on which the Validation Engine rejects (the
default record: the funding transaction has no outputs). -/
def exBadUserInputs : UserInputs := default

/-- Witness for C4: the hypotheses are satisfiable on both sides — the
concrete accepted fee-419 pair balances exactly, and on a rejected record
nothing is signed. -/
theorem c4_value_conservation_witness :
    (∃ vals fee out0,
      funding_input_values (mkExFunding 7 419) = some vals ∧
      (mkExFunding 7 419).fee_amount = some fee ∧
      (mkExFunding 7 419).unsigned_tx.output.get? 0 = some out0 ∧
      vals.sum = out0.value + fee) ∧
    (UEvent.signSendRefund ∉ userRun exBadUserInputs ∧
      UEvent.signSendFunding ∉ userRun exBadUserInputs) :=
  ⟨c4_value_conservation.1 (mkExFunding 7 419) (mkExRefund 7 419 4291 4290) exDesc
      exMyUtxo exAddrA (by decide),
    c4_value_conservation.2 exBadUserInputs (by decide)⟩

/-- The compiled users-to-maker descriptor script for the shared concrete
run (keys 1..9, commitment preimage 7). -/
def exUserDescSpk : Nat :=
  descriptor_spk (users2maker_contract_desc
    (fun i => Nat.repr (([1,2,3,4,5,6,7,8,9] : List Nat).getD i.val 0)) (Nat.repr (sha256 7)))

/-- Concrete user-session inputs on which every check passes and the trace
runs to completion (ends with the final private-key release). -/
def exUserInputs : UserInputs :=
  { prv_key1 := PrivateKey.mk 1, prv_key2 := PrivateKey.mk 4, prv_key3 := PrivateKey.mk 7
  , my_utxo := exMyUtxo
  , refund_addr := exAddrA
  , recv_keys := [1,2,3,4,5,6,7,8,9]
  , recv_hash := sha256 7
  , funding := mkExFunding exUserDescSpk 418
  , refund := mkExRefund exUserDescSpk 418 4291 4291
  , finalized_refund := mkExRefund exUserDescSpk 418 4291 4291
  , finalized_funding := mkExFunding exUserDescSpk 418
  , prv_key4 := PrivateKey.mk 40, prv_key5 := PrivateKey.mk 41
  , maker_keys := [50, 60]
  , maker_txid := 0
  , preimage := 7
  , maker_prv_key := PrivateKey.mk 50 }

/-- The same session except that the maker echoes the user's own phase-2
multisig key back as its first maker-to-user contract key. -/
def exUserInputsDupKey : UserInputs :=
  { exUserInputs with maker_keys := [40, 60], maker_prv_key := PrivateKey.mk 40 }

/-- C5 counterexample: a protocol run that completes without any abort
(the user releases its final private key) while the maker-to-user contract
descriptor the user builds embeds a duplicated key — the maker sent the
user's own `pub_key4` back as `maker_key1`, and no check catches it.  So
not every descriptor generated during a run has pairwise-distinct keys. -/
theorem c5_duplicate_maker2user_key_counterexample :
    UEvent.sendFinalPrvKey 1 ∈ userRun exUserInputsDupKey ∧
    (user_maker2user_keys exUserInputsDupKey).Nodup = False := by
  set_option maxRecDepth 10000 in decide

/-- C5 amended: the distinctness the protocol actually enforces.  For the
9-key users-to-maker descriptor, `check_contract_keys` (run by the user
before anything is signed) guarantees all nine keys pairwise distinct and
each of the user's keys in exactly one path triplet.  For the 4-key
maker-to-user descriptor, only the two maker-provided keys are verified
distinct from each other (`read_second_contract_data`); duplicates between
the maker's keys and the user's own two keys are not prevented. -/
theorem c5_descriptor_keys_amended :
    (∀ (keys : List PublicKey) (my_key1 my_key2 my_key3 : PublicKey),
      check_contract_keys keys my_key1 my_key2 my_key3 = true →
      keys.Nodup ∧
      (keys.take 3).count my_key1 = 1 ∧
      ((keys.drop 3).take 3).count my_key2 = 1 ∧
      ((keys.drop 6).take 3).count my_key3 = 1) ∧
    (∀ inp : UserInputs, UEvent.recvSecondContractData ∈ userRun inp →
      inp.maker_keys.getD 0 0 ≠ inp.maker_keys.getD 1 0) := by
  constructor
  · intro keys my_key1 my_key2 my_key3 h
    simp only [check_contract_keys, Bool.and_eq_true, and_assoc, beq_iff_eq] at h
    obtain ⟨hlen, h1, h2, h3⟩ := h
    refine ⟨?_, ?_, ?_, ?_⟩
    · have hd := List.dedup_sublist keys
      have heq := hd.eq_of_length hlen.symm
      rw [← heq]
      exact List.nodup_dedup keys
    · rw [List.count, List.countP_eq_length_filter]
      exact h1
    · rw [List.count, List.countP_eq_length_filter]
      exact h2
    · rw [List.count, List.countP_eq_length_filter]
      exact h3
  · intro inp hmem heq
    simp only [userRun, userPhase2, heq, ne_eq, not_true_eq_false, if_false, List.mem_cons] at hmem
    repeat first
    | (split at hmem)
    | simp_all

/-- Witness for the amended C5 theorem: both parts hold at concrete
inputs — the keys 1..9 pass the check and are distinct, and the completed
concrete run received two distinct maker keys. -/
theorem c5_descriptor_keys_amended_witness :
    (([1,2,3,4,5,6,7,8,9] : List PublicKey).Nodup ∧
      (([1,2,3,4,5,6,7,8,9] : List PublicKey).take 3).count 1 = 1 ∧
      ((([1,2,3,4,5,6,7,8,9] : List PublicKey).drop 3).take 3).count 4 = 1 ∧
      ((([1,2,3,4,5,6,7,8,9] : List PublicKey).drop 6).take 3).count 7 = 1) ∧
    exUserInputs.maker_keys.getD 0 0 ≠ exUserInputs.maker_keys.getD 1 0 :=
  ⟨c5_descriptor_keys_amended.1 [1,2,3,4,5,6,7,8,9] 1 4 7 (by decide),
    c5_descriptor_keys_amended.2 exUserInputs
      (by set_option maxRecDepth 10000 in decide)⟩

/-- User A's collateral as the foreign weighted utxo the maker receives. -/
def exU1 : WeightedUtxo :=
  { outpoint := exOutpoint1
  , psbt_input := { non_witness_utxo := some exPrev1, witness_utxo := some { value := 5000, script_pubkey := 11 } } }

/-- User B's collateral as the foreign weighted utxo the maker receives. -/
def exU2 : WeightedUtxo :=
  { outpoint := exOutpoint2
  , psbt_input := { non_witness_utxo := some exPrev2, witness_utxo := some { value := 5000, script_pubkey := 12 } } }

/-- The compiled users-to-maker descriptor of the shared concrete run. -/
def exMakerDesc : Descriptor := Descriptor.mk exUserDescSpk

/-- The funding/refund pair the maker builds in the shared concrete run. -/
def exPair : Psbt × Psbt :=
  (build_funding_and_refund exMakerDesc [exU1, exU2] [exAddrA, exAddrB] 418).getD default

/-- Concrete maker-session inputs on which the whole orchestration runs to
completion (both users cooperate and return valid signatures and keys). -/
def exMakerInputs : MakerInputs :=
  { key1_a := 1, key2_a := 4, key3_a := 7
  , utxo_a := exU1, addr_a := exAddrA
  , key1_b := 2, key2_b := 5, key3_b := 8
  , utxo_b := exU2, addr_b := exAddrB
  , prv_key1 := PrivateKey.mk 3, prv_key2 := PrivateKey.mk 6, prv_key3 := PrivateKey.mk 9
  , preimage := 7
  , funding_builder_fee := 418
  , signed_refund_a := exPair.2, signed_refund_b := exPair.2
  , signed_funding_a := exPair.1, signed_funding_b := exPair.1
  , key1_x := 21, key2_x := 22, key1_y := 23, key2_y := 24
  , prv_key4 := PrivateKey.mk 31, prv_key5 := PrivateKey.mk 32
  , prv_key6 := PrivateKey.mk 33, prv_key7 := PrivateKey.mk 34
  , hashlock_key_a := PrivateKey.mk 7, hashlock_key_b := PrivateKey.mk 8
  , final_key_a := PrivateKey.mk 1, final_key_b := PrivateKey.mk 2 }

/-- The same maker session except user A hands over a private key whose
public key matches no expected hashlock public key. -/
def exMakerInputsBadKey : MakerInputs :=
  { exMakerInputs with hashlock_key_a := PrivateKey.mk 999 }

/-- The same user session except the maker reveals a wrong preimage. -/
def exUserInputsBadPreimage : UserInputs :=
  { exUserInputs with preimage := 8 }

/-- The funding transaction is signed only in the phase-1 branch of the
user trace; the second-leg continuation never signs it. -/
theorem signSendFunding_not_mem_userPhase2 (inp : UserInputs) :
    UEvent.signSendFunding ∉ userPhase2 inp := by
  intro hmem
  simp only [userPhase2, List.mem_cons] at hmem
  repeat first
  | (split at hmem)
  | simp_all

/-- The finalized funding transaction is distributed only in the phase-1
branch of the maker trace; the second-leg continuation never sends it. -/
theorem sendFinalizedFunding_not_mem_makerPhase2 (inp : MakerInputs) (i : Nat) :
    MEvent.sendFinalizedFunding i ∉ makerPhase2 inp := by
  intro hmem
  simp only [makerPhase2, List.mem_cons] at hmem
  repeat first
  | (split at hmem)
  | simp_all

/-- C6: if any handed-over phase-1 private key derives a public key that
does not occur exactly once among the two expected hashlock-path public
keys, `check_prv_keys` fails (the `assert_eq!` panics) and the maker trace
never contains the reveal of the preimage and phase-2 multisig private
keys; conversely a reveal in the trace implies the key check passed. -/
theorem c6_hashlock_key_mismatch_aborts :
    (∀ inp : MakerInputs,
      (∃ k ∈ [inp.hashlock_key_a, inp.hashlock_key_b],
        ([inp.key3_a, inp.key3_b].filter (fun actual_key => actual_key == k.publicKey)).length ≠ 1) →
      check_prv_keys [inp.hashlock_key_a, inp.hashlock_key_b] [inp.key3_a, inp.key3_b] = false ∧
      (∀ i, MEvent.revealPreimageAndKeys i ∉ makerRun inp)) ∧
    (∀ inp : MakerInputs, ∀ i, MEvent.revealPreimageAndKeys i ∈ makerRun inp →
      check_prv_keys [inp.hashlock_key_a, inp.hashlock_key_b] [inp.key3_a, inp.key3_b] = true) := by
  constructor
  · intro inp hbad
    have hfalse : check_prv_keys [inp.hashlock_key_a, inp.hashlock_key_b]
        [inp.key3_a, inp.key3_b] = false := by
      obtain ⟨k, hk, hcount⟩ := hbad
      by_contra habs
      rw [Bool.not_eq_false] at habs
      simp only [check_prv_keys, List.all_eq_true, List.mem_map] at habs
      refine hcount ?_
      have h := habs (k.publicKey) ⟨k, hk, rfl⟩
      simpa using h
    refine ⟨hfalse, ?_⟩
    intro i hmem
    simp only [makerRun, makerPhase2, List.mem_cons] at hmem
    repeat first
    | (split at hmem)
    | simp_all
  · intro inp i hmem
    simp only [makerRun, makerPhase2, List.mem_cons] at hmem
    repeat first
    | (split at hmem)
    | simp_all

/-- Witness for C6: at the concrete bad handover (key 999 against expected
hashlock keys 7 and 8) the check fails and the completed-run reveal event
is absent, while the honest concrete run satisfies the key check. -/
theorem c6_hashlock_key_mismatch_aborts_witness :
    (check_prv_keys [exMakerInputsBadKey.hashlock_key_a, exMakerInputsBadKey.hashlock_key_b]
        [exMakerInputsBadKey.key3_a, exMakerInputsBadKey.key3_b] = false ∧
      MEvent.revealPreimageAndKeys 0 ∉ makerRun exMakerInputsBadKey) ∧
    check_prv_keys [exMakerInputs.hashlock_key_a, exMakerInputs.hashlock_key_b]
      [exMakerInputs.key3_a, exMakerInputs.key3_b] = true :=
  ⟨⟨(c6_hashlock_key_mismatch_aborts.1 exMakerInputsBadKey (by decide)).1,
      (c6_hashlock_key_mismatch_aborts.1 exMakerInputsBadKey (by decide)).2 0⟩,
    c6_hashlock_key_mismatch_aborts.2 exMakerInputs 0
      (by set_option maxRecDepth 20000 in decide)⟩

/-- C7: the user verifies that the revealed preimage hashes to the
commitment received at session start before treating the handed-over maker
private key as valid and before releasing its own final private key: a
mismatch means the final key is never sent, and a sent final key implies
both the preimage check and the maker-key check passed. -/
theorem c7_preimage_checked_before_final_key :
    (∀ inp : UserInputs, sha256 inp.preimage ≠ inp.recv_hash →
      ∀ k, UEvent.sendFinalPrvKey k ∉ userRun inp) ∧
    (∀ inp : UserInputs, ∀ k, UEvent.sendFinalPrvKey k ∈ userRun inp →
      sha256 inp.preimage = inp.recv_hash ∧
      check_prv_keys [inp.maker_prv_key] [inp.maker_keys.getD 0 0] = true) := by
  constructor
  · intro inp hne k hmem
    simp only [userRun, userPhase2, List.mem_cons] at hmem
    repeat first
    | (split at hmem)
    | simp_all
  · intro inp k hmem
    simp only [userRun, userPhase2, List.mem_cons] at hmem
    repeat first
    | (split at hmem)
    | simp_all

/-- Witness for C7: at the concrete run with a wrong preimage the final key
is never sent; at the honest concrete run (where the final key is sent) the
preimage and maker key verify. -/
theorem c7_preimage_checked_before_final_key_witness :
    UEvent.sendFinalPrvKey 1 ∉ userRun exUserInputsBadPreimage ∧
    (sha256 exUserInputs.preimage = exUserInputs.recv_hash ∧
      check_prv_keys [exUserInputs.maker_prv_key] [exUserInputs.maker_keys.getD 0 0] = true) :=
  ⟨c7_preimage_checked_before_final_key.1 exUserInputsBadPreimage (by decide) 1,
    c7_preimage_checked_before_final_key.2 exUserInputs 1
      (by set_option maxRecDepth 10000 in decide)⟩

/-- C1: refund-before-funding ordering.  In every user trace, the funding
signature is produced exactly once and only strictly after the event of
receiving the finalized refund whose unsigned transaction id equals the
refund the user previously signed; in every maker trace, any distribution
of the finalized funding transaction happens strictly after the maker has
signed the combined refund and sent the finalized refund to both users. -/
theorem c1_refund_before_funding :
    (∀ inp : UserInputs, UEvent.signSendFunding ∈ userRun inp →
      ∃ l1 l2, userRun inp =
          l1 ++ UEvent.recvFinalizedRefund inp.refund.unsigned_tx.txid ::
            UEvent.signSendFunding :: l2 ∧
        UEvent.signSendFunding ∉ l1 ∧ UEvent.signSendFunding ∉ l2) ∧
    (∀ inp : MakerInputs, ∀ i, MEvent.sendFinalizedFunding i ∈ makerRun inp →
      ∃ l1 l2, makerRun inp =
          l1 ++ MEvent.signRefund :: MEvent.sendFinalizedRefund 0 ::
            MEvent.sendFinalizedRefund 1 :: l2 ∧
        (∀ j, MEvent.sendFinalizedFunding j ∉ l1)) := by
  constructor
  · intro inp hmem
    by_cases h9 : inp.recv_keys.length = 9
    · by_cases hck : check_contract_keys inp.recv_keys inp.prv_key1.publicKey
          inp.prv_key2.publicKey inp.prv_key3.publicKey = true
      · by_cases hcp : check_psbts inp.funding inp.refund (userDesc inp) inp.my_utxo
            inp.refund_addr = true
        · by_cases htx : inp.finalized_refund.unsigned_tx.txid = inp.refund.unsigned_tx.txid
          · refine ⟨[UEvent.sendUserData, UEvent.recvContractData, UEvent.signSendRefund],
              UEvent.recvFinalizedFunding inp.finalized_funding.unsigned_tx.txid ::
                (if inp.finalized_funding.unsigned_tx.txid = inp.funding.unsigned_tx.txid then
                  userPhase2 inp else []), ?_, by decide, ?_⟩
            · simp only [userRun, h9, hck, hcp, htx, if_true, List.cons_append, List.nil_append]
            · intro h2
              simp only [List.mem_cons] at h2
              rcases h2 with h2 | h2
              · simp at h2
              · split at h2
                · exact signSendFunding_not_mem_userPhase2 inp h2
                · simp at h2
          · simp [userRun, h9, hck, hcp, htx] at hmem
        · simp [userRun, h9, hck, hcp] at hmem
      · simp [userRun, h9, hck] at hmem
    · simp [userRun, h9] at hmem
  · intro inp i hmem
    rcases hb : build_funding_and_refund (makerDesc inp) [inp.utxo_a, inp.utxo_b]
        [inp.addr_a, inp.addr_b] inp.funding_builder_fee with _ | ⟨fp, rp⟩
    · simp [makerRun, hb] at hmem
    · by_cases hra : inp.signed_refund_a.unsigned_tx.txid = rp.unsigned_tx.txid
      · by_cases hrb : inp.signed_refund_b.unsigned_tx.txid = rp.unsigned_tx.txid
        · refine ⟨[MEvent.recvUserData, MEvent.sendContractData 0, MEvent.sendContractData 1,
              MEvent.recvSignedRefund 0, MEvent.recvSignedRefund 1],
            MEvent.recvSignedFunding 0 ::
              (if inp.signed_funding_a.unsigned_tx.txid = fp.unsigned_tx.txid then
                MEvent.recvSignedFunding 1 ::
                  (if inp.signed_funding_b.unsigned_tx.txid = fp.unsigned_tx.txid then
                    MEvent.sendFinalizedFunding 0 :: MEvent.sendFinalizedFunding 1 ::
                      makerPhase2 inp
                  else [])
              else []), ?_, ?_⟩
          · simp only [makerRun, hb, hra, hrb, if_true, List.cons_append, List.nil_append]
          · intro j h2
            simp at h2
        · simp [makerRun, hb, hra, hrb] at hmem
      · simp [makerRun, hb, hra] at hmem

/-- Witness for C1: both orderings are realized on the shared concrete
completed run, where the funding-signature events do occur. -/
theorem c1_refund_before_funding_witness :
    (∃ l1 l2, userRun exUserInputs =
        l1 ++ UEvent.recvFinalizedRefund exUserInputs.refund.unsigned_tx.txid ::
          UEvent.signSendFunding :: l2 ∧
      UEvent.signSendFunding ∉ l1 ∧ UEvent.signSendFunding ∉ l2) ∧
    (∃ l1 l2, makerRun exMakerInputs =
        l1 ++ MEvent.signRefund :: MEvent.sendFinalizedRefund 0 ::
          MEvent.sendFinalizedRefund 1 :: l2 ∧
      (∀ j, MEvent.sendFinalizedFunding j ∉ l1)) :=
  ⟨c1_refund_before_funding.1 exUserInputs (by set_option maxRecDepth 10000 in decide),
    c1_refund_before_funding.2 exMakerInputs 0
      (by set_option maxRecDepth 20000 in decide)⟩

/-- Computation of bdk's fee for a two-input psbt whose inputs carry
witness utxos. -/
theorem fee_amount_two_inputs (p : Psbt) (i0 i1 : TxIn) (p0 p1 : PsbtInput) (w0 w1 : TxOut)
    (hins : p.unsigned_tx.input = [i0, i1]) (hpins : p.inputs = [p0, p1])
    (hw0 : p0.witness_utxo = some w0) (hw1 : p1.witness_utxo = some w1) :
    p.fee_amount = csub (w0.value + w1.value) ((p.unsigned_tx.output.map TxOut.value).sum) := by
  unfold Psbt.fee_amount Psbt.get_utxo_for
  rw [hins, hpins]
  simp [List.range_succ, List.mapM.loop, hw0, hw1]

/-- Computation of bdk's fee for a one-input psbt whose input carries a
witness utxo. -/
theorem fee_amount_one_input (p : Psbt) (i0 : TxIn) (p0 : PsbtInput) (w0 : TxOut)
    (hins : p.unsigned_tx.input = [i0]) (hpins : p.inputs = [p0])
    (hw0 : p0.witness_utxo = some w0) :
    p.fee_amount = csub w0.value ((p.unsigned_tx.output.map TxOut.value).sum) := by
  unfold Psbt.fee_amount Psbt.get_utxo_for
  rw [hins, hpins]
  simp [List.range_succ, List.mapM.loop, hw0]

set_option maxHeartbeats 1000000 in
/-- C3: for every funding/refund pair the maker successfully builds for 2
users, the refund pays each user whose collateral has value `V` exactly
`V - (funding_fee + 1000) / 2` in floor-division arithmetic, the refund
transaction's absolute fee is exactly 1000 units, and this per-user value is
precisely what `check_psbts` step 8 requires for that user's refund
address (the user-side `check8` accepts the built pair). -/
theorem c3_refund_value_and_fee (desc : Descriptor) (u1 u2 : WeightedUtxo)
    (a1 a2 : Address) (ffee : Nat) (fp rp : Psbt) (t1 t2 : TxOut)
    (h : build_funding_and_refund desc [u1, u2] [a1, a2] ffee = some (fp, rp))
    (h1 : u1.psbt_input.witness_utxo = some t1)
    (h2 : u2.psbt_input.witness_utxo = some t2)
    (ha : a1.script_pubkey ≠ a2.script_pubkey) :
    fp.fee_amount = some ffee ∧ rp.fee_amount = some 1000 ∧
    rp.unsigned_tx.output.map TxOut.value =
      [t1.value - (ffee + 1000) / 2, t2.value - (ffee + 1000) / 2] ∧
    rp.unsigned_tx.output.map TxOut.script_pubkey = [a1.script_pubkey, a2.script_pubkey] ∧
    step8_refund_amount t1.value ffee 2 = some (t1.value - (ffee + 1000) / 2) ∧
    check8 fp rp (LocalUtxo.mk u1.outpoint t1) a1 = true ∧
    check8 fp rp (LocalUtxo.mk u2.outpoint t2) a2 = true := by
  unfold build_funding_and_refund build_funding_tx build_refund_tx at h
  simp only [List.length_cons, List.length_nil, if_pos, List.mapM_cons, List.mapM_nil,
    h1, h2, Option.pure_def, Option.bind_eq_bind, Option.bind_some, Option.some_bind,
    List.map_cons, List.map_nil, List.zip_cons_cons, List.zip_nil_right, List.zip_nil_left,
    List.sum_cons, List.sum_nil, Nat.add_zero, Nat.zero_add] at h
  rcases hcs : csub (t1.value + t2.value) ffee with _ | drained
  · rw [hcs] at h
    cases h
  rw [hcs] at h
  simp only [Option.some_bind, Nat.reduceAdd, reduceIte, List.get?_cons_zero,
    Nat.reduceDiv] at h
  rw [fee_amount_two_inputs _ _ _ _ _ t1 t2 rfl rfl h1 h2] at h
  simp only [List.map_cons, List.map_nil, List.sum_cons, List.sum_nil, Nat.add_zero,
    List.length_cons, List.length_nil, Nat.reduceAdd, reduceIte] at h
  have hfd : csub (t1.value + t2.value) drained = some ffee := by
    rw [csub_eq_some_iff] at hcs ⊢
    omega
  rw [hfd] at h
  simp only [Option.some_bind] at h
  rcases hca : csub t1.value (ffee / 2) with _ | x1
  · rw [hca] at h
    cases h
  rw [hca] at h
  simp only [Option.some_bind] at h
  rcases hcb : csub x1 500 with _ | y1
  · rw [hcb] at h
    cases h
  rw [hcb] at h
  simp only [Option.some_bind] at h
  rcases hcc : csub t2.value (ffee / 2) with _ | x2
  · rw [hcc] at h
    cases h
  rw [hcc] at h
  simp only [Option.some_bind] at h
  rcases hcd : csub x2 500 with _ | y2
  · rw [hcd] at h
    cases h
  rw [hcd] at h
  simp only [Option.some_bind] at h
  simp only [Option.some_bind, List.map_cons, List.map_nil, List.sum_cons, List.sum_nil,
    Nat.add_zero] at h
  by_cases hle : y1 + y2 + 1000 ≤ drained
  · rw [if_pos hle] at h
    simp only [Option.some.injEq, Prod.mk.injEq] at h
    obtain ⟨hfp, hrp⟩ := h
    subst hfp
    subst hrp
    have hb1 : ffee ≤ t1.value + t2.value ∧ drained = t1.value + t2.value - ffee := by
      rw [csub_eq_some_iff] at hcs
      exact hcs
    have hb2 : ffee / 2 ≤ t1.value ∧ x1 = t1.value - ffee / 2 := by
      rw [csub_eq_some_iff] at hca
      exact hca
    have hb3 : 500 ≤ x1 ∧ y1 = x1 - 500 := by
      rw [csub_eq_some_iff] at hcb
      exact hcb
    have hb4 : ffee / 2 ≤ t2.value ∧ x2 = t2.value - ffee / 2 := by
      rw [csub_eq_some_iff] at hcc
      exact hcc
    have hb5 : 500 ≤ x2 ∧ y2 = x2 - 500 := by
      rw [csub_eq_some_iff] at hcd
      exact hcd
    have hr1000 : csub drained (y1 + y2) = some 1000 := by
      rw [csub_eq_some_iff]
      omega
    have h51 : csub t1.value ((ffee + 1000) / 2) = some y1 := by
      rw [csub_eq_some_iff]
      omega
    have h52 : csub t2.value ((ffee + 1000) / 2) = some y2 := by
      rw [csub_eq_some_iff]
      omega
    have hy1 : y1 = t1.value - (ffee + 1000) / 2 := by omega
    have hy2 : y2 = t2.value - (ffee + 1000) / 2 := by omega
    have hne21 : (a2.script_pubkey == a1.script_pubkey) = false := by
      simp only [beq_eq_false_iff_ne, ne_eq]
      intro hh
      exact ha hh.symm
    have hne12 : (a1.script_pubkey == a2.script_pubkey) = false := by
      simp only [beq_eq_false_iff_ne, ne_eq]
      exact ha
    refine ⟨?_, ?_, ?_, ?_, ?_, ?_, ?_⟩
    · rw [fee_amount_two_inputs _ _ _ _ _ t1 t2 rfl rfl h1 h2]
      simpa using hfd
    · rw [fee_amount_one_input _ _ _ { value := drained, script_pubkey := desc.script_pubkey }
        rfl rfl rfl]
      simp only [List.map_cons, List.map_nil, List.sum_cons, List.sum_nil, Nat.add_zero]
      exact hr1000
    · simp only [List.map_cons, List.map_nil, List.cons.injEq, and_true]
      exact ⟨hy1, hy2⟩
    · simp only [List.map_cons, List.map_nil]
    · unfold step8_refund_amount
      rw [if_neg (by omega)]
      rw [hy1] at h51
      exact h51
    · unfold check8
      rw [fee_amount_two_inputs _ _ _ _ _ t1 t2 rfl rfl h1 h2]
      simp only [List.map_cons, List.map_nil, List.sum_cons, List.sum_nil, Nat.add_zero]
      rw [hfd]
      rw [fee_amount_one_input _ _ _ { value := drained, script_pubkey := desc.script_pubkey }
        rfl rfl rfl]
      simp only [List.map_cons, List.map_nil, List.sum_cons, List.sum_nil, Nat.add_zero]
      rw [hr1000]
      simp only [beq_self_eq_true, Bool.true_and]
      unfold step8_refund_amount
      simp only [List.length_map, List.length_cons, List.length_nil, Nat.reduceAdd,
        reduceIte]
      rw [h51]
      unfold my_txouts
      simp only [List.filter_cons, beq_self_eq_true, hne21, List.filter_nil, if_true,
        Bool.false_eq_true, if_false]
      simp
    · unfold check8
      rw [fee_amount_two_inputs _ _ _ _ _ t1 t2 rfl rfl h1 h2]
      simp only [List.map_cons, List.map_nil, List.sum_cons, List.sum_nil, Nat.add_zero]
      rw [hfd]
      rw [fee_amount_one_input _ _ _ { value := drained, script_pubkey := desc.script_pubkey }
        rfl rfl rfl]
      simp only [List.map_cons, List.map_nil, List.sum_cons, List.sum_nil, Nat.add_zero]
      rw [hr1000]
      simp only [beq_self_eq_true, Bool.true_and]
      unfold step8_refund_amount
      simp only [List.length_map, List.length_cons, List.length_nil, Nat.reduceAdd,
        reduceIte]
      rw [h52]
      unfold my_txouts
      simp only [List.filter_cons, beq_self_eq_true, hne12, List.filter_nil, if_true,
        Bool.false_eq_true, if_false]
      simp
  · rw [if_neg hle] at h
    cases h

/-- Witness for C3: the concrete maker build with collaterals of value 5000
each and builder fee 418 yields refund outputs of 5000 - 709 = 4291, an
absolute refund fee of 1000, and both users' step-8 checks accept. -/
theorem c3_refund_value_and_fee_witness :
    exPair.1.fee_amount = some 418 ∧ exPair.2.fee_amount = some 1000 ∧
    exPair.2.unsigned_tx.output.map TxOut.value =
      [5000 - (418 + 1000) / 2, 5000 - (418 + 1000) / 2] ∧
    exPair.2.unsigned_tx.output.map TxOut.script_pubkey =
      [exAddrA.script_pubkey, exAddrB.script_pubkey] ∧
    step8_refund_amount 5000 418 2 = some (5000 - (418 + 1000) / 2) ∧
    check8 exPair.1 exPair.2
      (LocalUtxo.mk exU1.outpoint (TxOut.mk 5000 11)) exAddrA = true ∧
    check8 exPair.1 exPair.2
      (LocalUtxo.mk exU2.outpoint (TxOut.mk 5000 12)) exAddrB = true :=
  c3_refund_value_and_fee exMakerDesc exU1 exU2 exAddrA exAddrB 418 exPair.1 exPair.2
    (TxOut.mk 5000 11) (TxOut.mk 5000 12)
    (by set_option maxRecDepth 20000 in decide) rfl rfl (by decide)
